import Mathlib

/-!
Verification of the paraglide-solid locale bridge.

This file shallowly embeds the core logic of the repository:
  * `src/server.ts` — `setLocaleFromRequest` (cookie / Accept-Language /
    base-locale resolution) and the read-override installed by
    `createServerI18n`;
  * `src/index.tsx` — the client bridge `createI18n` and its `setLocale`
    (lines 243-259 of the source), plus the context accessors
    `useI18n` / `useLocaleContext`;
  * `src/middleware.ts` — `createI18nMiddleware` (option defaults and the
    `Set-Cookie` header it appends);
  * `src/valibot.ts` — `createErrorTranslator` (and the `errorMessage`
    variant of the same module).

JavaScript strings are modelled as Lean `String` (ASCII inputs only are
exercised; `Char.toLower` matches `toLowerCase` on ASCII), machine-level
string helpers (`split`, `trim`, regex matching) are re-implemented
structurally over `List Char` with the exact JavaScript semantics the code
relies on, and `event.locals` (a `Record<string, unknown>` holding string
values) is a total function `String → Option String`.
-/

-- ─── Data model ────────────────────────────────────────────────────────────

/-- The `ParaglideRuntime` shape from `src/types.ts`, restricted to the data
the resolver consults: the configured base locale and the closed locale set. -/
structure Runtime where
  baseLocale : String
  locales : List String
deriving Repr, DecidableEq

/-- The fixed key `__paraglide_locale__` under which `server.ts` stores the
resolved locale in `event.locals`. -/
def LOCALE_KEY : String := "__paraglide_locale__"

/-- The minimal `RequestEvent` shape from `src/server.ts`: its `locals`
record, modelled as a partial map from keys to stored string values. -/
structure RequestEvent where
  locals : String → Option String

/-- Pointwise update of the locals record: `event.locals[k] = v`. -/
def setLocal (l : String → Option String) (k v : String) : String → Option String :=
  fun q => if q = k then some v else l q

-- ─── JavaScript string helpers (structural, kernel-reducible) ──────────────

/-- JavaScript `s.split(sep)` for a one-character separator: `"" → [""]`,
and empty fields between adjacent separators are kept. -/
def splitOnChar (sep : Char) : List Char → List (List Char)
  | [] => [[]]
  | c :: cs =>
    let r := splitOnChar sep cs
    if c = sep then [] :: r
    else
      match r with
      | [] => [[c]]
      | g :: gs => (c :: g) :: gs

/-- JavaScript `s.trim()` on ASCII input: strip whitespace at both ends. -/
def trimChars (cs : List Char) : List Char :=
  ((cs.dropWhile Char.isWhitespace).reverse.dropWhile Char.isWhitespace).reverse

/-- One entry of the Accept-Language list, as `server.ts` maps it:
`s.split(";")[0]?.trim().toLowerCase().split("-")[0]` — drop the quality
weight, trim, lower-case, keep the primary subtag before any `-`. -/
def primaryLangSubtag (s : List Char) : List Char :=
  ((trimChars (s.takeWhile (· ≠ ';'))).map Char.toLower).takeWhile (· ≠ '-')

/-- The whole Accept-Language pipeline of `setLocaleFromRequest`: split on
commas, normalise every entry, and `find` the first non-empty candidate that
is a member of `locales`. -/
def parseAcceptLanguage (locales : List String) (al : String) : Option String :=
  (((splitOnChar ',' al.data).map primaryLangSubtag).map (fun t => String.mk t)).find?
    (fun t => !(t = "") && locales.contains t)

/-- The tail of `cs` right after the first occurrence of `pat`
(none when `pat` never occurs): the engine behind the regex search. -/
def afterFirstMatch (pat : List Char) : List Char → Option (List Char)
  | [] => none
  | c :: cs =>
    if pat.isPrefixOf (c :: cs) then some ((c :: cs).drop pat.length)
    else afterFirstMatch pat cs

-- ─── Server request resolver (`setLocaleFromRequest`, server.ts 85-119) ────

/-- The cookie regex `cookieHeader.match(/PARAGLIDE_LOCALE=([^;]+)/)` — find the first
occurrence of the literal `PARAGLIDE_LOCALE=` and capture the following
non-empty run of characters up to (not including) the next `;`. -/
def cookieLocaleValue (header : String) : Option String :=
  match afterFirstMatch ("PARAGLIDE_LOCALE=".data) header.data with
  | none => none
  | some rest =>
    let v := rest.takeWhile (· ≠ ';')
    if v = [] then none else some (String.mk v)

/-- The locale-selection logic of `setLocaleFromRequest` (server.ts 90-115),
line by line: start from `baseLocale`; if the cookie header matches and the
captured value is in `runtime.locales`, take it; then, whenever the value so
far still equals `baseLocale`, consult the (truthy) Accept-Language header
and take its first supported candidate.  `none` models an absent header. -/
def resolveLocale (rt : Runtime) (cookieHeader acceptLang : Option String) : String :=
  let afterCookie :=
    match cookieLocaleValue (cookieHeader.getD "") with
    | some cand => if rt.locales.contains cand then cand else rt.baseLocale
    | none => rt.baseLocale
  if afterCookie = rt.baseLocale then
    match acceptLang with
    | some al =>
      if al = "" then afterCookie
      else
        match parseAcceptLanguage rt.locales al with
        | some t => t
        | none => afterCookie
    | none => afterCookie
  else afterCookie

/-- The resolver `setLocaleFromRequest(request, event, runtime)` — resolve the locale
from the request's `cookie` / `accept-language` headers, store it in
`event.locals[LOCALE_KEY]`, and return it (server.ts 85-119). -/
def setLocaleFromRequest (rt : Runtime) (cookieHeader acceptLang : Option String)
    (event : RequestEvent) : String × RequestEvent :=
  let locale := resolveLocale rt cookieHeader acceptLang
  (locale, ⟨setLocal event.locals LOCALE_KEY locale⟩)

-- ─── Server read-override (`createServerI18n`, server.ts 54-72) ────────────

/-- The closure `createServerI18n` installs via `overwriteGetLocale`
(server.ts 58-71): if `getRequestEvent()` yields an event whose
`locals[LOCALE_KEY]` holds a truthy value contained in `runtime.locales`,
return it; otherwise return `runtime.baseLocale`.  The truthiness test of
`if (locale && ...)` makes the empty string fall through to the base. -/
def serverGetLocale (rt : Runtime) (ev : Option RequestEvent) : String :=
  match ev with
  | some e =>
    match e.locals LOCALE_KEY with
    | some l =>
      if l = "" then rt.baseLocale
      else if rt.locales.contains l then l else rt.baseLocale
    | none => rt.baseLocale
  | none => rt.baseLocale

-- ─── Client bridge (`createI18n`, index.tsx 243-284) ───────────────────────

/-- One invocation of the runtime's native `setLocale(locale, {reload})`
as recorded from the bridge's side: which locale was passed and whether the
options carried `reload: true`. -/
structure NativeCall where
  locale : String
  reload : Bool
deriving Repr, DecidableEq

/-- The mutable state the bridge closes over: `currentLocale` (the internal
last-set reference, index.tsx 246), the SolidJS signal `_locale`
(index.tsx 249), and the runtime's own persisted locale (the state the
native `runtime.setLocale` writes). -/
structure BridgeState where
  currentLocale : String
  signalLocale : String
  runtimeLocale : String
deriving Repr, DecidableEq

/-- What a call of the bridge's public `setLocale` leaves behind: the new
state, the native-setter invocations it made, and whether it re-threw an
exception from the native setter. -/
structure SetLocaleResult where
  state : BridgeState
  calls : List NativeCall
  threw : Bool
deriving Repr, DecidableEq

/-- The constructor `createI18n` seeds every piece of state from `runtime.getLocale()`
(index.tsx 245-249): the last-set reference and the signal both start at
the initial locale. -/
def createBridge (initialLocale : String) : BridgeState :=
  ⟨initialLocale, initialLocale, initialLocale⟩

/-- After `runtime.overwriteGetLocale(() => _locale())` (index.tsx 252),
`getLocale()` observes the signal. -/
def getLocaleOverridden (s : BridgeState) : String :=
  s.signalLocale

/-- The public `setLocale` of `createI18n` (index.tsx 254-259), statement by
statement: return if `newLocale === currentLocale`; set `currentLocale`;
call `runtime.setLocale(newLocale, { reload: false })`; update the signal.
`nativeOk` says whether the native setter returns normally — when it throws
(`nativeOk = false`) the exception propagates before the signal update, so
the state built up to that point is what remains. -/
def setLocaleBridge (nativeOk : Bool) (s : BridgeState) (newLocale : String) : SetLocaleResult :=
  if newLocale = s.currentLocale then ⟨s, [], false⟩
  else
    let s1 : BridgeState := { s with currentLocale := newLocale }
    if nativeOk then
      let s2 : BridgeState := { s1 with runtimeLocale := newLocale }
      ⟨{ s2 with signalLocale := newLocale }, [⟨newLocale, false⟩], false⟩
    else
      ⟨s1, [⟨newLocale, false⟩], true⟩

-- ─── Context accessors (`useI18n` index.tsx 273-281, `useLocaleContext`) ───

/-- The message of the error thrown by `useI18n` when `useContext` finds no
provider (index.tsx 276-279). -/
def useI18nErrorMsg : String :=
  "[@inlang/paraglide-solid] useI18n() called outside <I18nProvider>.\n" ++
  "Wrap your app root with <I18nProvider>."

/-- The message of the error thrown by `useLocaleContext` when called
outside a `<LocaleProvider>` (index.tsx 188-197). -/
def useLocaleContextErrorMsg : String :=
  "[paraglide-solid] useLocaleContext() was called outside a <LocaleProvider>.\n" ++
  "Wrap your app root with <LocaleProvider locale=\x7blocale()\x7d setLocale=\x7bsetLocale\x7d>."

/-- The hook `useI18n` (index.tsx 273-281): `useContext` either yields the provider's
context value or `undefined`; in the latter case the hook throws.  Throwing
is modelled by `Except.error` carrying the thrown message. -/
def useI18n {α : Type} (ctx : Option α) : Except String α :=
  match ctx with
  | some c => Except.ok c
  | none => Except.error useI18nErrorMsg

/-- The hook `useLocaleContext` (index.tsx 188-197), same shape with its own
message. -/
def useLocaleContext {α : Type} (ctx : Option α) : Except String α :=
  match ctx with
  | some c => Except.ok c
  | none => Except.error useLocaleContextErrorMsg

-- ─── Error-key translator (`valibot.ts` 75-85 and the `errorMessage` draft) ─

/-- A compiled messages module, as the translator consumes it: a key either
resolves to a message function (a callable producing the translated string)
or to nothing callable. -/
def MessagesModule : Type := String → Option (Unit → String)

/-- The translator returned by `createErrorTranslator(messages)`
(valibot.ts 78-84): look the error string up in the module; invoke a
callable hit with no arguments; pass anything else through unchanged. -/
def translateError (messages : MessagesModule) (error : String) : String :=
  match messages error with
  | some f => f ()
  | none => error

/-- The `errorMessage` variant (src/unnamed/part_001, lines 87-98): take the
first element of a possibly-null error list; a missing or falsy (empty)
first element yields `null`; otherwise translate exactly as above. -/
def errorMessage (messages : MessagesModule) (errors : Option (List String)) : Option String :=
  let error := match errors with
    | none => ""
    | some es => es.headD ""
  if error = "" then none
  else
    match messages error with
    | some f => some (f ())
    | none => some error

-- ─── Middleware (`createI18nMiddleware`, middleware.ts 37-77) ──────────────

/-- Option bag of the middleware; `none` means the caller omitted the key, so
the destructuring default applies (middleware.ts 57-61). -/
structure MiddlewareOptions where
  cookieName : Option String
  cookieMaxAge : Option Nat
  refreshCookie : Option Bool
deriving Repr, DecidableEq

/-- The slice of SolidStart's `FetchEvent` the middleware touches: the
request headers it reads, the response headers it appends to, and the
`locals` record it writes. -/
structure FetchEvent where
  cookieHeader : Option String
  acceptLang : Option String
  responseHeaders : List (String × String)
  locals : String → Option String

/-- The `Set-Cookie` value the middleware appends (middleware.ts 70):
`` `${cookieName}=${locale}; Path=/; Max-Age=${cookieMaxAge}; SameSite=Lax` ``. -/
def setCookieValue (name locale : String) (maxAge : Nat) : String :=
  name ++ "=" ++ locale ++ "; Path=/; Max-Age=" ++ Nat.repr maxAge ++ "; SameSite=Lax"

/-- The handler returned by `createI18nMiddleware(runtime, options)`
(middleware.ts 63-76): resolve and store the locale via
`setLocaleFromRequest`, append a refreshed cookie header only when
`refreshCookie` resolved to `true`, then store the locale in
`event.locals[LOCALE_KEY]` once more. -/
def i18nMiddleware (rt : Runtime) (o : MiddlewareOptions) (ev : FetchEvent) : FetchEvent :=
  let name := o.cookieName.getD "PARAGLIDE_LOCALE"
  let maxAge := o.cookieMaxAge.getD 34560000
  let refresh := o.refreshCookie.getD false
  let r := setLocaleFromRequest rt ev.cookieHeader ev.acceptLang ⟨ev.locals⟩
  let locale := r.1
  let headers1 :=
    if refresh then ev.responseHeaders ++ [("Set-Cookie", setCookieValue name locale maxAge)]
    else ev.responseHeaders
  { ev with responseHeaders := headers1, locals := setLocal (r.2.locals) LOCALE_KEY locale }

/-- Modelled from the claim C9's spec sentence, for comparison with the code:
the wire format `<cookieName>=<locale>; path=/; max-age=<seconds>`
optionally followed by `; domain=<domain>` and optionally `; SameSite=Lax`,
read as a predicate on the produced header value. -/
def specCookieFormat (name locale : String) (secs : Nat) (s : String) : Prop :=
  ∃ dom ss : List Char,
    (dom = [] ∨ ∃ d : List Char, dom = "; domain=".data ++ d) ∧
    (ss = [] ∨ ss = "; SameSite=Lax".data) ∧
    s.data = (name ++ "=" ++ locale ++ "; path=/; max-age=" ++ Nat.repr secs).data ++ (dom ++ ss)

-- ─── Concrete fixtures used by the witnesses ───────────────────────────────

/-- A two-locale runtime (`en` base, `de` second) used by concrete checks. -/
def rtEx : Runtime := ⟨"en", ["en", "de"]⟩

/-- A messages module holding exactly the catalog of the spec's example:
`errNameMin` resolves to a message function producing `Name too short`. -/
def exCatalog : MessagesModule :=
  fun k => if k = "errNameMin" then some (fun _ => "Name too short") else none

/-- A request scope whose locals hold one unrelated key before resolution. -/
def exEvent : RequestEvent := ⟨fun k => if k = "other" then some "kept" else none⟩

/-- A request scope whose locale slot already holds `de`. -/
def exServerEvent : RequestEvent :=
  ⟨fun k => if k = LOCALE_KEY then some "de" else none⟩

-- ─── Claim theorems ────────────────────────────────────────────────────────

/-- C1 (code evidence for the deviation): the resolver of
`setLocaleFromRequest` does NOT give an unconditional precedence to a valid
cookie locale — with `locales = [en, de]`, `baseLocale = en`, a valid cookie
`PARAGLIDE_LOCALE=en` and header `Accept-Language: de`, the code returns
`de`, because its Accept-Language fallback fires whenever the cookie-derived
value still equals `baseLocale`.  The claim's own `de`-cookie/`fr`-header
example, by contrast, does yield the cookie locale. -/
theorem cookie_base_locale_loses_to_header :
    resolveLocale rtEx (some "PARAGLIDE_LOCALE=en") (some "de") = "de" ∧
    resolveLocale rtEx (some "PARAGLIDE_LOCALE=de") (some "fr") = "de" := by
  decide

/-- C2: for a supported locale `L` different from the bridge's current
value, a successful `setLocale L` leaves the signal (the store accessor) at
`L`, makes the overridden `getLocale()` observe `L`, persists `L` in the
runtime, performs exactly one native-setter call with `reload: false`, does
not throw, and triggers no reload. -/
theorem setLocale_updates_store_and_runtime (rt : Runtime) (s : BridgeState) (L : String)
    (hmem : L ∈ rt.locales) (hne : L ≠ s.currentLocale) :
    (setLocaleBridge true s L).state.signalLocale = L ∧
    getLocaleOverridden (setLocaleBridge true s L).state = L ∧
    (setLocaleBridge true s L).state.runtimeLocale = L ∧
    (setLocaleBridge true s L).calls = [⟨L, false⟩] ∧
    (setLocaleBridge true s L).threw = false ∧
    ((setLocaleBridge true s L).calls.all fun c => !c.reload) = true := by
  simp [setLocaleBridge, getLocaleOverridden, hne]

/-- C2 witness: the theorem applied at the concrete bridge seeded with `en`
and the concrete target `de`. -/
theorem setLocale_updates_store_and_runtime_witness :
    (setLocaleBridge true (createBridge "en") "de").state.signalLocale = "de" ∧
    getLocaleOverridden (setLocaleBridge true (createBridge "en") "de").state = "de" ∧
    (setLocaleBridge true (createBridge "en") "de").state.runtimeLocale = "de" ∧
    (setLocaleBridge true (createBridge "en") "de").calls = [⟨"de", false⟩] ∧
    (setLocaleBridge true (createBridge "en") "de").threw = false ∧
    ((setLocaleBridge true (createBridge "en") "de").calls.all fun c => !c.reload) = true :=
  setLocale_updates_store_and_runtime rtEx (createBridge "en") "de" (by decide) (by decide)

/-- C3 (code evidence for the deviation): when the native setter throws
during `setLocale "de"` from a fully-`en` state, the exception propagates
(`threw = true`) and the store is left unchanged (`signalLocale = "en"`),
but the internal last-set reference is NOT rolled back — it remains at
`"de"`, the value whose persistence just failed. -/
theorem native_throw_leaves_last_set_unrolled :
    (setLocaleBridge false ⟨"en", "en", "en"⟩ "de").threw = true ∧
    (setLocaleBridge false ⟨"en", "en", "en"⟩ "de").state.signalLocale = "en" ∧
    (setLocaleBridge false ⟨"en", "en", "en"⟩ "de").state.currentLocale = "de" := by
  decide

/-- C4: calling `setLocale` with the value the bridge last set is a no-op
whatever the native setter would do: the whole result is the unchanged
state, an empty call list, and no exception. -/
theorem setLocale_noop_on_last_set (ok : Bool) (s : BridgeState) (L : String)
    (h : L = s.currentLocale) :
    setLocaleBridge ok s L = ⟨s, [], false⟩ := by
  simp [setLocaleBridge, h]

/-- C4 witness: re-setting `en` on the freshly seeded `en` bridge. -/
theorem setLocale_noop_on_last_set_witness :
    setLocaleBridge true (createBridge "en") "en" = ⟨createBridge "en", [], false⟩ :=
  setLocale_noop_on_last_set true (createBridge "en") "en" (by decide)

/-- C5: `setLocaleFromRequest` stores exactly the locale it returns under
`LOCALE_KEY` in the scope it was passed, leaves every other key of that
scope untouched, and two separately resolved scopes each hold their own
resolved value independently of the other. -/
theorem request_scope_isolation (rt : Runtime) (ch1 al1 ch2 al2 : Option String)
    (e1 e2 : RequestEvent) :
    ((setLocaleFromRequest rt ch1 al1 e1).2.locals LOCALE_KEY
        = some (setLocaleFromRequest rt ch1 al1 e1).1) ∧
    ((setLocaleFromRequest rt ch2 al2 e2).2.locals LOCALE_KEY
        = some (setLocaleFromRequest rt ch2 al2 e2).1) ∧
    (∀ k, k ≠ LOCALE_KEY →
        (setLocaleFromRequest rt ch1 al1 e1).2.locals k = e1.locals k ∧
        (setLocaleFromRequest rt ch2 al2 e2).2.locals k = e2.locals k) := by
  refine ⟨by simp [setLocaleFromRequest, setLocal], by simp [setLocaleFromRequest, setLocal], ?_⟩
  intro k hk
  simp [setLocaleFromRequest, setLocal, hk]

/-- C5 witness: resolving a `de` cookie against a scope carrying an
unrelated key leaves that key's value in place. -/
theorem request_scope_isolation_witness :
    (setLocaleFromRequest rtEx (some "PARAGLIDE_LOCALE=de") none exEvent).2.locals "other"
      = exEvent.locals "other" :=
  ((request_scope_isolation rtEx (some "PARAGLIDE_LOCALE=de") none none none
      exEvent exEvent).2.2 "other" (by decide)).1


/-- C6: with no provider in the ancestry (`useContext` yields nothing),
`useI18n` and `useLocaleContext` both throw their `MissingProviderError`
message instead of returning a default, each message contains the
remediation hint starting with "Wrap your app root", and with a provider
present each hook returns the provider's context value. -/
theorem missing_provider_throws (α : Type) :
    useI18n (none : Option α) = Except.error useI18nErrorMsg ∧
    useLocaleContext (none : Option α) = Except.error useLocaleContextErrorMsg ∧
    (∀ v : α, useI18n (some v) = Except.ok v) ∧
    (∀ v : α, useLocaleContext (some v) = Except.ok v) ∧
    (afterFirstMatch "Wrap your app root".data useI18nErrorMsg.data).isSome = true ∧
    (afterFirstMatch "Wrap your app root".data useLocaleContextErrorMsg.data).isSome = true := by
  refine ⟨rfl, rfl, fun v => rfl, fun v => rfl, by decide, by decide⟩

/-- C6 witness: the theorem applied at the concrete context-value type
`String`. -/
theorem missing_provider_throws_witness :
    useI18n (none : Option String) = Except.error useI18nErrorMsg :=
  (missing_provider_throws String).1

/-- C7: the translator invokes a callable found under the exact key and
returns its result, passes unmatched strings through unchanged, and the
`errorMessage` variant returns `null` for an absent, empty, or falsy-headed
error list and otherwise translates the primary candidate the same way;
both functions are total, so no input throws. -/
theorem error_translator_spec (messages : MessagesModule) :
    (∀ k f, messages k = some f → translateError messages k = f ()) ∧
    (∀ k, messages k = none → translateError messages k = k) ∧
    errorMessage messages none = none ∧
    errorMessage messages (some []) = none ∧
    (∀ es, errorMessage messages (some ("" :: es)) = none) ∧
    (∀ k es, k ≠ "" →
        errorMessage messages (some (k :: es)) = some (translateError messages k)) := by
  refine ⟨?_, ?_, rfl, rfl, fun es => rfl, ?_⟩
  · intro k f h
    simp [translateError, h]
  · intro k h
    simp [translateError, h]
  · intro k es hk
    cases hm : messages k <;> simp [errorMessage, translateError, hk, hm]

/-- C7 witness: the spec's example catalog — key hit, pass-through, and the
null input. -/
theorem error_translator_spec_witness :
    translateError exCatalog "errNameMin" = "Name too short" ∧
    translateError exCatalog "freeform text" = "freeform text" ∧
    errorMessage exCatalog none = none :=
  ⟨(error_translator_spec exCatalog).1 "errNameMin" (fun _ => "Name too short") rfl,
   (error_translator_spec exCatalog).2.1 "freeform text" rfl,
   (error_translator_spec exCatalog).2.2.1⟩

/-- C8: provided the runtime's locale set does not contain the empty string
(true of every real locale set), the read-override installed by
`createServerI18n` returns the scope's stored locale exactly when a scope
is obtainable and its slot holds a supported value, and `baseLocale` in
every other case: unsupported stored value, empty slot, or no scope. -/
theorem server_get_locale_spec (rt : Runtime) (hnz : "" ∉ rt.locales) :
    (∀ e l, e.locals LOCALE_KEY = some l → l ∈ rt.locales →
        serverGetLocale rt (some e) = l) ∧
    (∀ e l, e.locals LOCALE_KEY = some l → l ∉ rt.locales →
        serverGetLocale rt (some e) = rt.baseLocale) ∧
    (∀ e, e.locals LOCALE_KEY = none → serverGetLocale rt (some e) = rt.baseLocale) ∧
    serverGetLocale rt none = rt.baseLocale := by
  refine ⟨?_, ?_, ?_, rfl⟩
  · intro e l hl hmem
    have hne : l ≠ "" := fun h => hnz (h ▸ hmem)
    simp [serverGetLocale, hl, hne, hmem]
  · intro e l hl hmem
    by_cases h0 : l = ""
    · simp [serverGetLocale, hl, h0]
    · simp [serverGetLocale, hl, h0, hmem]
  · intro e hl
    simp [serverGetLocale, hl]

/-- C8 witness: the theorem applied at a scope storing `de` (returned), at
one storing the unsupported `fr` (base), and with no scope at all (base). -/
theorem server_get_locale_spec_witness :
    serverGetLocale rtEx (some exServerEvent) = "de" ∧
    serverGetLocale rtEx none = "en" :=
  ⟨(server_get_locale_spec rtEx (by decide)).1 exServerEvent "de" rfl (by decide),
   (server_get_locale_spec rtEx (by decide)).2.2.2⟩

/-- C9 (amended): when `refreshCookie` resolves to `true` the middleware
appends exactly one `Set-Cookie` header whose value is
`<cookieName>=<locale>; Path=/; Max-Age=<seconds>; SameSite=Lax` —
capitalised attribute names, `SameSite=Lax` always present, no domain
attribute — using the defaulted option values; when `refreshCookie`
resolves to `false`, in particular when it is omitted (its default), the
response headers are left untouched. -/
theorem middleware_cookie_header_spec (rt : Runtime) (o : MiddlewareOptions) (ev : FetchEvent) :
    (o.refreshCookie = some true →
      (i18nMiddleware rt o ev).responseHeaders =
        ev.responseHeaders ++ [("Set-Cookie",
          setCookieValue (o.cookieName.getD "PARAGLIDE_LOCALE")
            (resolveLocale rt ev.cookieHeader ev.acceptLang)
            (o.cookieMaxAge.getD 34560000))]) ∧
    (o = ⟨none, none, some true⟩ →
      (i18nMiddleware rt o ev).responseHeaders =
        ev.responseHeaders ++ [("Set-Cookie",
          setCookieValue "PARAGLIDE_LOCALE"
            (resolveLocale rt ev.cookieHeader ev.acceptLang) 34560000)]) ∧
    (o.refreshCookie.getD false = false →
      (i18nMiddleware rt o ev).responseHeaders = ev.responseHeaders) ∧
    (o.refreshCookie = none →
      (i18nMiddleware rt o ev).responseHeaders = ev.responseHeaders) := by
  refine ⟨?_, ?_, ?_, ?_⟩
  · intro h
    simp [i18nMiddleware, setLocaleFromRequest, h]
  · intro h
    subst h
    simp [i18nMiddleware, setLocaleFromRequest, Option.getD]
  · intro h
    simp [i18nMiddleware, setLocaleFromRequest, h]
  · intro h
    simp [i18nMiddleware, setLocaleFromRequest, h, Option.getD]

/-- C9 witness: the theorem applied with all options omitted (the default
configuration) — no `Set-Cookie` header is appended. -/
theorem middleware_cookie_header_spec_witness :
    (i18nMiddleware rtEx ⟨none, none, none⟩ ⟨none, none, [], fun _ => none⟩).responseHeaders
      = [] :=
  (middleware_cookie_header_spec rtEx ⟨none, none, none⟩
      ⟨none, none, [], fun _ => none⟩).2.2.2 rfl

/-- C9 counterexample: with `refreshCookie: true` and default name and age,
the middleware appends the concrete header value
`PARAGLIDE_LOCALE=en; Path=/; Max-Age=34560000; SameSite=Lax`, and that
value does not match the claimed wire format
`<cookieName>=<locale>; path=/; max-age=<seconds>[; domain=<d>][; SameSite=Lax]`
(the produced attribute names are capitalised where the claim's are not). -/
theorem middleware_cookie_header_counterexample :
    (i18nMiddleware rtEx ⟨none, none, some true⟩
        ⟨none, none, [], fun _ => none⟩).responseHeaders =
      [("Set-Cookie", "PARAGLIDE_LOCALE=en; Path=/; Max-Age=34560000; SameSite=Lax")] ∧
    ¬ specCookieFormat "PARAGLIDE_LOCALE" "en" 34560000
        "PARAGLIDE_LOCALE=en; Path=/; Max-Age=34560000; SameSite=Lax" := by
  constructor
  · decide
  · rintro ⟨dom, ss, _, _, h⟩
    have hb : ("PARAGLIDE_LOCALE" ++ "=" ++ "en" ++ "; path=/; max-age=" ++
          Nat.repr 34560000).data
        = "PARAGLIDE_LOCALE=en; path=/; max-age=34560000".data := by decide
    rw [hb] at h
    have h2 := congrArg
      (List.take ("PARAGLIDE_LOCALE=en; path=/; max-age=34560000".data).length) h
    rw [List.take_left] at h2
    exact absurd h2 (by decide)

/-- C10: after a `setLocale L` in which the native setter threw, the
last-set reference already holds `L` while the store still holds the old
value; consequently every later `setLocale L` — whether or not the native
setter would now succeed — hits the no-op guard: state unchanged, no
native-setter call, no exception, so the skipped persistence is never
completed by retrying with the same locale. -/
theorem retry_after_native_throw_is_noop (s : BridgeState) (L : String)
    (hne : L ≠ s.currentLocale) :
    (setLocaleBridge false s L).threw = true ∧
    (setLocaleBridge false s L).state.currentLocale = L ∧
    (setLocaleBridge false s L).state.signalLocale = s.signalLocale ∧
    ∀ ok : Bool, setLocaleBridge ok (setLocaleBridge false s L).state L =
      ⟨(setLocaleBridge false s L).state, [], false⟩ := by
  refine ⟨?_, ?_, ?_, ?_⟩ <;> simp [setLocaleBridge, hne]

/-- C10 witness: the failed `en → de` switch followed by a retry. -/
theorem retry_after_native_throw_is_noop_witness :
    (setLocaleBridge false (createBridge "en") "de").threw = true ∧
    (setLocaleBridge false (createBridge "en") "de").state.currentLocale = "de" ∧
    (setLocaleBridge false (createBridge "en") "de").state.signalLocale
      = (createBridge "en").signalLocale ∧
    ∀ ok : Bool, setLocaleBridge ok (setLocaleBridge false (createBridge "en") "de").state "de" =
      ⟨(setLocaleBridge false (createBridge "en") "de").state, [], false⟩ :=
  retry_after_native_throw_is_noop (createBridge "en") "de" (by decide)
